import Mathlib

/-!
Verification of the TrafficTelligence traffic-volume training and
prediction script against its specification.

The script (in the repository's `IBM/flask/IBM` directory) performs
feature engineering on timestamped traffic records, fits a
`ColumnTransformer` (a `StandardScaler` over the numeric columns and a
`OneHotEncoder` with `handle_unknown='ignore'` over the categorical
columns) feeding a `RandomForestRegressor`, and wraps the fitted
pipeline in a `TrafficVolumePredictor` class whose `predict` method
returns `max(0, int(raw))` for the raw regression output and whose
`get_feature_importance` method returns the ten largest normalized
importances.

This file is a shallow embedding of those operations: floating-point
values are modelled by the rationals (and by the reals where a square
root appears), pandas timestamps by hours elapsed since the epoch
(1970-01-01 00:00, a Thursday), and the fitted scikit-learn estimators
by their documented, deterministic mathematical behaviour.
-/

namespace TrafficTelligence

/-! ### Feature deriver

The script derives calendar features via
`df['hour'] = df['date_time'].dt.hour`,
`df['day_of_week'] = df['date_time'].dt.dayofweek` (Monday = 0),
`df['is_weekend'] = 1 if day_of_week >= 5 else 0`, and
`df['is_rush_hour'] = 1 if (7 <= hour <= 9) or (16 <= hour <= 18) else 0`.
A timestamp is modelled as the number of whole hours since
1970-01-01 00:00; that day was a Thursday, which is day 3 in the
Monday = 0 convention used by pandas. -/

/-- Hour of day of a timestamp given as hours since the epoch,
as computed by `df['date_time'].dt.hour`. -/
def tsHour (t : ℕ) : ℕ := t % 24

/-- Day of week (Monday = 0 .. Sunday = 6) of a timestamp given as hours
since the epoch, as computed by `df['date_time'].dt.dayofweek`;
1970-01-01 was a Thursday, day 3. -/
def tsDayOfWeek (t : ℕ) : ℕ := (t / 24 + 3) % 7

/-- Weekend flag, from `df['day_of_week'].apply(lambda x: 1 if x >= 5 else 0)`. -/
def isWeekend (t : ℕ) : ℕ := if 5 ≤ tsDayOfWeek t then 1 else 0

/-- Rush-hour flag, from
`df['hour'].apply(lambda x: 1 if (7 <= x <= 9) or (16 <= x <= 18) else 0)`. -/
def isRushHour (t : ℕ) : ℕ :=
  if (7 ≤ tsHour t ∧ tsHour t ≤ 9) ∨ (16 ≤ tsHour t ∧ tsHour t ≤ 18) then 1 else 0

/-! ### Predictor output clamping

`TrafficVolumePredictor.predict` builds a one-row frame from the input
mapping, runs the fitted pipeline on it, and returns
`max(0, int(prediction))`.  Python's `int()` on a float truncates toward
zero. -/

/-- Truncation toward zero, the behaviour of Python's `int()` on a float. -/
def pyInt (q : ℚ) : ℤ := if q < 0 then ⌈q⌉ else ⌊q⌋

/-- The body of `TrafficVolumePredictor.predict`: the fitted pipeline is an
arbitrary real-valued function `m` of the input mapping, and the returned
value is `max(0, int(m(x)))`. -/
def tvpPredict {α : Type} (m : α → ℚ) (x : α) : ℤ := max 0 (pyInt (m x))

/-! ### Preprocessing pipeline

The script's preprocessor is
`ColumnTransformer([('num', StandardScaler(), numeric_features),
('cat', OneHotEncoder(handle_unknown='ignore'), categorical_features)])`.
`StandardScaler` records, per numeric column, the column mean and the
scale `sqrt(variance)` (population variance, `ddof = 0`), replacing a
zero scale by 1 (`_handle_zeros_in_scale`); `transform` maps a value `x`
of that column to `(x - mean) / scale` and `inverse_transform` maps `v`
back to `v * scale + mean`.  `OneHotEncoder(handle_unknown='ignore')`
records, per categorical column, the set of categories seen at fit time
and encodes a value as the indicator vector over that set, producing an
all-zero vector for a value outside it instead of raising. -/

/-- Mean of a training column, as recorded by `StandardScaler.fit`. -/
def colMean (xs : List ℚ) : ℚ := xs.sum / xs.length

/-- Population variance (`ddof = 0`) of a training column, as recorded by
`StandardScaler.fit`. -/
def colVariance (xs : List ℚ) : ℚ :=
  ((xs.map fun x => (x - colMean xs) ^ 2).sum) / xs.length

/-- The per-column scale recorded by `StandardScaler.fit`: the square root
of the variance, with a zero scale replaced by 1
(`sklearn.preprocessing._data._handle_zeros_in_scale`). -/
noncomputable def colScale (xs : List ℚ) : ℝ :=
  if colVariance xs = 0 then 1 else Real.sqrt (colVariance xs)

/-- `StandardScaler.transform` on one value of the column fitted on `xs`. -/
noncomputable def stdTransform (xs : List ℚ) (x : ℚ) : ℝ :=
  ((x : ℝ) - colMean xs) / colScale xs

/-- `StandardScaler.inverse_transform` on one value of the column fitted
on `xs`. -/
noncomputable def invStdTransform (xs : List ℚ) (v : ℝ) : ℝ :=
  v * colScale xs + colMean xs

/-- `OneHotEncoder` encoding of one categorical value over the category
list recorded at fit time: the indicator vector of the value in that list.
With `handle_unknown='ignore'` an unseen value yields the all-zero vector. -/
def oneHot (cats : List String) (v : String) : List ℚ :=
  cats.map fun c => if c = v then 1 else 0

/-- The categorical half of the fitted `ColumnTransformer`: the one-hot
block of each categorical column, columns paired positionally with their
fitted category lists. -/
def oneHotBlocks (state : List (List String)) (vals : List String) :
    List (List ℚ) :=
  List.zipWith oneHot state vals

/-! ### Regression model

The regressor is `RandomForestRegressor(n_estimators=100, random_state=42)`.
A fitted CART regression tree routes an input to a leaf and predicts the
arithmetic mean of the training targets that reached that leaf during
fitting; the forest predicts the mean of the per-tree predictions.  The
embedding keeps the routing abstract: a fitted tree is the function from
inputs to the list of (bootstrap-resampled) training-row indices in the
leaf the input reaches. -/

/-- Arithmetic mean of a list of rationals. -/
def listMean (xs : List ℚ) : ℚ := xs.sum / xs.length

/-- A fitted regression tree over inputs of type `α`: `leafRows x` is the
list of training-row indices that populated the leaf reached by `x`. -/
structure RegressionTree (α : Type) where
  leafRows : α → List ℕ

/-- Well-formedness of a fitted tree for a target column: every leaf holds
at least one training row and only valid row indices. -/
def WFTree {α : Type} (targets : List ℚ) (t : RegressionTree α) : Prop :=
  ∀ x : α, t.leafRows x ≠ [] ∧ ∀ i ∈ t.leafRows x, i < targets.length

/-- Prediction of one fitted tree: the mean of the training targets in the
leaf reached by the input. -/
def treePredict {α : Type} (targets : List ℚ) (t : RegressionTree α) (x : α) : ℚ :=
  listMean ((t.leafRows x).map fun i => targets.getD i 0)

/-- Prediction of the fitted forest: the mean of the per-tree predictions,
as in `RandomForestRegressor.predict`. -/
def forestPredict {α : Type} (targets : List ℚ) (ts : List (RegressionTree α))
    (x : α) : ℚ :=
  listMean (ts.map fun t => treePredict targets t x)

/-- Mean squared error of predictions against actuals, as computed by
`mean_squared_error(y_test, y_pred)`. -/
def mseList (preds acts : List ℚ) : ℚ :=
  listMean (List.zipWith (fun p a => (p - a) ^ 2) preds acts)

/-- Root mean squared error, as computed by `np.sqrt(mse)`. -/
noncomputable def rmseList (preds acts : List ℚ) : ℝ :=
  Real.sqrt (mseList preds acts)

/-! ### Feature importances

`get_feature_importance` reads
`self.model.named_steps['regressor'].feature_importances_` — which
scikit-learn normalizes to total 1 whenever the trees recorded any
impurity reduction at all (`compute_feature_importances(normalize=True)`
per tree, then the averaged vector is divided by its sum) — wraps it in a
`pd.Series`, sorts descending and returns `.head(10)`. -/

/-- Normalization scikit-learn applies to raw accumulated importances:
divide by the total unless the total is zero. -/
def normalizeImportances (raw : List ℚ) : List ℚ :=
  if raw.sum = 0 then raw else raw.map fun x => x / raw.sum

/-- The body of `get_feature_importance`: the normalized importances sorted
in descending order, truncated to the ten largest
(`feature_importance.sort_values(ascending=False).head(10)`). -/
def getFeatureImportance (raw : List ℚ) : List ℚ :=
  ((normalizeImportances raw).insertionSort (fun a b => b ≤ a)).take 10

/-! ### Predictor construction

`TrafficVolumePredictor.__init__` loads the pickled pipeline with
`joblib.load(model_path)` and stores two option lists; it performs no
validation of the loaded artifact. -/

/-- A trained model artifact: the fitted preprocessing pipeline together
with the fitted regressor, abstracted to the output dimensionality of the
former and the expected input dimensionality of the latter. -/
structure TrainedArtifact where
  preprocOutDim : ℕ
  modelInDim : ℕ
deriving DecidableEq

/-- Error kinds the specification assigns to predictor construction. -/
inductive ArtifactError where
  | artifactMismatch
deriving DecidableEq

/-- The state `TrafficVolumePredictor.__init__` builds: the loaded model
plus the two hard-coded option lists. -/
structure TrafficVolumePredictor where
  model : TrainedArtifact
  weather_options : List String
  holiday_options : List String
deriving DecidableEq

/-- `TrafficVolumePredictor.__init__` on an already-deserialized artifact:
it stores the artifact and the option lists and performs no dimensionality
check, so construction always succeeds. -/
def tvpInit (a : TrainedArtifact) : Except ArtifactError TrafficVolumePredictor :=
  .ok ⟨a, ["Clear", "Clouds", "Rain", "Snow", "Mist", "Drizzle"],
        ["None", "Christmas", "New Year", "Thanksgiving", "Independence Day"]⟩

/-- Constructor following the specification's words, for comparison with
`tvpInit`: reject with `ArtifactMismatch` any artifact whose preprocessing
output dimensionality differs from the regressor's input dimensionality. -/
def initSpec (a : TrainedArtifact) : Except ArtifactError TrafficVolumePredictor :=
  if a.preprocOutDim = a.modelInDim then
    .ok ⟨a, ["Clear", "Clouds", "Rain", "Snow", "Mist", "Drizzle"],
          ["None", "Christmas", "New Year", "Thanksgiving", "Independence Day"]⟩
  else .error ArtifactError.artifactMismatch

/-! ### Feature selection

Line `features = df[['holiday', 'temp', 'rain_1h', 'snow_1h',
'weather_main', 'month', 'hour', 'day_of_week', 'is_weekend',
'is_rush_hour']]` selects the training columns; `clouds_all` is present in
the raw frame but excluded, so neither the pipeline nor the regressor ever
sees it. -/

/-- A raw engineered data-frame row, including the `clouds_all` column. -/
structure RawRow where
  holiday : String
  temp : ℚ
  rain_1h : ℚ
  snow_1h : ℚ
  weather_main : String
  clouds_all : ℚ
  month : ℕ
  hour : ℕ
  day_of_week : ℕ
  is_weekend : ℕ
  is_rush_hour : ℕ

/-- The ten columns the script keeps as model features. -/
structure FeatureRow where
  holiday : String
  temp : ℚ
  rain_1h : ℚ
  snow_1h : ℚ
  weather_main : String
  month : ℕ
  hour : ℕ
  day_of_week : ℕ
  is_weekend : ℕ
  is_rush_hour : ℕ

/-- The column selection `df[[...]]` of the script: projects a raw row to
the feature columns, dropping `clouds_all` (and the timestamp/target). -/
def selectFeatures (r : RawRow) : FeatureRow :=
  ⟨r.holiday, r.temp, r.rain_1h, r.snow_1h, r.weather_main,
   r.month, r.hour, r.day_of_week, r.is_weekend, r.is_rush_hour⟩

/-- The fitted pipeline applied to a raw row: an arbitrary function `g` of
the selected feature columns (the pipeline was fit on, and reads, only
those columns). -/
def modelPredictOn (g : FeatureRow → ℚ) (r : RawRow) : ℚ :=
  g (selectFeatures r)

end TrafficTelligence

namespace TrafficTelligence

/-- C4: for every timestamp, the derived weekend flag is set iff the day of
week is 5 or 6, and the derived rush-hour flag is set iff the hour lies in
{7, 8, 9, 16, 17, 18}. -/
theorem isWeekend_isRushHour_spec (t : ℕ) :
    (isWeekend t = 1 ↔ tsDayOfWeek t = 5 ∨ tsDayOfWeek t = 6) ∧
    (isRushHour t = 1 ↔
      tsHour t = 7 ∨ tsHour t = 8 ∨ tsHour t = 9 ∨
      tsHour t = 16 ∨ tsHour t = 17 ∨ tsHour t = 18) := by
  have hd : tsDayOfWeek t < 7 := Nat.mod_lt _ (by norm_num)
  have hh : tsHour t < 24 := Nat.mod_lt _ (by norm_num)
  constructor
  · unfold isWeekend
    split <;> rename_i h <;> omega
  · unfold isRushHour
    split <;> rename_i h <;> omega

/-- C1: `predict` never returns a negative integer, for every pipeline
output and every input mapping. -/
theorem tvpPredict_nonneg {α : Type} (m : α → ℚ) (x : α) :
    0 ≤ tvpPredict m x :=
  le_max_left 0 (pyInt (m x))

/-- C2 counterexample: on a raw regression output of 2.7 the predictor
returns `max(0, int(2.7)) = 2`, while the claimed `max(0, round(2.7))`
is 3: `int()` truncates rather than rounds to nearest. -/
theorem tvpPredict_ne_round_counterexample :
    tvpPredict (fun _ : Unit => (27 : ℚ) / 10) () ≠
      max 0 (round ((27 : ℚ) / 10)) := by
  have h1 : tvpPredict (fun _ : Unit => (27 : ℚ) / 10) () = 2 := by
    norm_num [tvpPredict, pyInt]
  have h2 : round ((27 : ℚ) / 10) = 3 := by
    norm_num [round_eq]
  rw [h1, h2]
  norm_num

/-- C2 amended: the returned integer equals `max(0, ⌊v⌋)` — the raw output
truncated (equivalently, for the values that survive the clamp, floored) —
not `max(0, round(v))`. -/
theorem tvpPredict_eq_max_floor {α : Type} (m : α → ℚ) (x : α) :
    tvpPredict m x = max 0 ⌊m x⌋ := by
  unfold tvpPredict pyInt
  split <;> rename_i h
  · have hc : ⌈m x⌉ ≤ 0 := Int.ceil_le.mpr (by exact_mod_cast h.le)
    have hf : ⌊m x⌋ ≤ 0 := le_trans (Int.floor_le_ceil _) hc
    rw [max_eq_left hc, max_eq_left hf]
  · rfl

/-- A fitted column's variance is nonnegative. -/
lemma colVariance_nonneg (xs : List ℚ) : 0 ≤ colVariance xs := by
  unfold colVariance
  apply div_nonneg
  · apply List.sum_nonneg
    intro a ha
    obtain ⟨x, _, rfl⟩ := List.mem_map.mp ha
    positivity
  · exact Nat.cast_nonneg _

/-- The recorded scale is positive, whether or not the column was
degenerate. -/
lemma colScale_pos (xs : List ℚ) : 0 < colScale xs := by
  unfold colScale
  split <;> rename_i h
  · norm_num
  · have hv : 0 < colVariance xs := lt_of_le_of_ne (colVariance_nonneg xs) (Ne.symm h)
    exact Real.sqrt_pos.mpr (by exact_mod_cast hv)

/-- One-hot encoding of a value absent from the fitted category list is
the all-zero vector. -/
lemma oneHot_of_not_mem (cats : List String) (v : String) (h : v ∉ cats) :
    oneHot cats v = List.replicate cats.length 0 := by
  induction cats with
  | nil => rfl
  | cons c cs ih =>
    have hc : c ≠ v := fun hcv => h (hcv ▸ List.mem_cons_self _ _)
    have hcs : v ∉ cs := fun hv => h (List.mem_cons_of_mem _ hv)
    simp [oneHot, hc, List.replicate_succ, ih hcs, oneHot] at ih ⊢
    exact ih hcs

/-- C3: transforming a feature set whose `i`-th categorical value was not
observed at fit time yields the all-zero one-hot block for that field (and,
the encoding being a total function, never raises). -/
theorem oneHotBlocks_unseen_all_zero
    (state : List (List String)) (vals : List String) (i : ℕ)
    (hlen : state.length ≤ vals.length) (hi : i < state.length)
    (hunseen : vals.getD i "" ∉ state.getD i []) :
    (oneHotBlocks state vals).getD i [] =
      List.replicate (state.getD i []).length 0 := by
  have hiv : i < vals.length := lt_of_lt_of_le hi hlen
  have hz : i < (oneHotBlocks state vals).length := by
    simp only [oneHotBlocks, List.length_zipWith]
    omega
  rw [List.getD_eq_getElem _ _ hz, List.getD_eq_getElem _ _ hi] at *
  rw [List.getD_eq_getElem _ _ hiv] at hunseen
  simp only [oneHotBlocks, List.getElem_zipWith]
  exact oneHot_of_not_mem _ _ hunseen

/-- C3 witness: a fitted state with one categorical field of categories
Clear and Clouds, transformed at the unseen value Fog. -/
theorem oneHotBlocks_unseen_all_zero_witness :
    (oneHotBlocks [["Clear", "Clouds"]] ["Fog"]).getD 0 [] =
      List.replicate ([["Clear", "Clouds"]].getD 0 []).length 0 :=
  oneHotBlocks_unseen_all_zero [["Clear", "Clouds"]] ["Fog"] 0
    (by decide) (by decide) (by decide)

/-- C7: a numeric field with zero variance at fit time is handled, not
failed on: the recorded scale is the fixed fallback 1 and transforming the
field subtracts the mean (both `fit` and `transform` are total). -/
theorem zero_variance_scale_one (xs : List ℚ) (h : colVariance xs = 0) :
    colScale xs = 1 ∧ ∀ x : ℚ, stdTransform xs x = (x : ℝ) - colMean xs := by
  have hs : colScale xs = 1 := by simp [colScale, h]
  exact ⟨hs, fun x => by simp [stdTransform, hs]⟩

/-- C7 witness: the constant column `[5, 5]` has zero variance and is
scaled by 1. -/
theorem zero_variance_scale_one_witness :
    colScale [5, 5] = 1 ∧ ∀ x : ℚ, stdTransform [5, 5] x = (x : ℝ) - colMean [5, 5] :=
  zero_variance_scale_one [5, 5] (by norm_num [colVariance, colMean])

/-- C8: for a record in the training column used at fit time, standardizing
its numeric value and then applying inverse standardization recovers the
original value exactly. -/
theorem stdTransform_roundTrip (xs : List ℚ) (x : ℚ) (hmem : x ∈ xs) :
    invStdTransform xs (stdTransform xs x) = x := by
  unfold invStdTransform stdTransform
  rw [div_mul_cancel₀ _ (ne_of_gt (colScale_pos xs))]
  ring

/-- C8 witness: round trip on the middle value of the training column
`[1, 2, 3]`. -/
theorem stdTransform_roundTrip_witness :
    invStdTransform [1, 2, 3] (stdTransform [1, 2, 3] 2) = 2 :=
  stdTransform_roundTrip [1, 2, 3] 2 (by norm_num)

/-- Dividing a list elementwise sums to the divided sum. -/
lemma sum_map_div (l : List ℚ) (s : ℚ) :
    (l.map fun x => x / s).sum = l.sum / s := by
  induction l with
  | nil => simp
  | cons a t ih => simp [ih, add_div]

/-- C5 counterexample: a model with eleven features of equal importance;
after normalization each is 1/11, and the ten scores returned by
`get_feature_importance` sum to 10/11, farther than 1e-6 from 1. -/
theorem getFeatureImportance_sum_counterexample :
    ¬ |(getFeatureImportance (List.replicate 11 1)).sum - 1| ≤ 1 / 1000000 := by
  have hv : getFeatureImportance (List.replicate 11 1) =
      List.replicate 10 ((1 : ℚ) / 11) := by
    norm_num [getFeatureImportance, normalizeImportances, List.replicate,
      List.insertionSort, List.orderedInsert]
  rw [hv]
  rw [show (List.replicate 10 ((1 : ℚ) / 11)).sum = 10 / 11 by
    norm_num [List.sum_replicate]]
  rw [show |(10 : ℚ) / 11 - 1| = 1 / 11 by rw [abs_of_nonpos] <;> norm_num]
  norm_num

/-- C5 amended: the full normalized importance vector sums to exactly 1
whenever the raw importances have nonzero total, but
`get_feature_importance` returns only the ten largest scores, whose sum
can fall short of 1 (it is merely bounded by 1 when importances are
nonnegative). -/
theorem normalizeImportances_sum_one (raw : List ℚ)
    (hpos : ∀ x ∈ raw, 0 ≤ x) (h : raw.sum ≠ 0) :
    (normalizeImportances raw).sum = 1 ∧ (getFeatureImportance raw).sum ≤ 1 := by
  have hsum : (normalizeImportances raw).sum = 1 := by
    unfold normalizeImportances
    rw [if_neg h, sum_map_div, div_self h]
  refine ⟨hsum, ?_⟩
  have hs : (0 : ℚ) < raw.sum :=
    lt_of_le_of_ne (List.sum_nonneg hpos) (Ne.symm h)
  have hnpos : ∀ x ∈ normalizeImportances raw, 0 ≤ x := by
    intro x hx
    unfold normalizeImportances at hx
    rw [if_neg h] at hx
    obtain ⟨y, hy, rfl⟩ := List.mem_map.mp hx
    exact div_nonneg (hpos y hy) hs.le
  set l := (normalizeImportances raw).insertionSort fun a b => b ≤ a with hl
  have hperm : l.Perm (normalizeImportances raw) :=
    List.perm_insertionSort _ _
  have hlsum : l.sum = 1 := by rw [hperm.sum_eq, hsum]
  have hdrop : 0 ≤ (l.drop 10).sum := by
    apply List.sum_nonneg
    intro x hx
    exact hnpos x (hperm.mem_iff.mp (List.mem_of_mem_drop hx))
  have hsplit : (l.take 10).sum + (l.drop 10).sum = l.sum :=
    List.sum_take_add_sum_drop l 10
  unfold getFeatureImportance
  rw [← hl]
  linarith

/-- C5 amended witness: three raw importances with positive total. -/
theorem normalizeImportances_sum_one_witness :
    (normalizeImportances [1, 2, 3]).sum = 1 ∧
    (getFeatureImportance [1, 2, 3]).sum ≤ 1 :=
  normalizeImportances_sum_one [1, 2, 3] (by norm_num) (by norm_num)

/-- C6 counterexample: the artifact whose preprocessing emits 3-vectors
while the regressor expects 5-vectors is mismatched, yet the constructor
does not fail with `ArtifactMismatch` — it performs no check at all. -/
theorem tvpInit_accepts_mismatch_counterexample :
    (TrainedArtifact.mk 3 5).preprocOutDim ≠ (TrainedArtifact.mk 3 5).modelInDim ∧
    tvpInit (TrainedArtifact.mk 3 5) ≠ Except.error ArtifactError.artifactMismatch := by
  refine ⟨by decide, ?_⟩
  simp [tvpInit]

/-- C6 amended: construction never validates dimensionality — it succeeds
on every artifact, including exactly those mismatched artifacts the
specification's constructor (`initSpec`) rejects with `ArtifactMismatch`. -/
theorem tvpInit_no_dimension_check (a : TrainedArtifact)
    (h : a.preprocOutDim ≠ a.modelInDim) :
    (tvpInit a).isOk = true ∧ initSpec a = Except.error ArtifactError.artifactMismatch :=
  ⟨rfl, by simp [initSpec, h]⟩

/-- C6 amended witness: the mismatched 3-to-5 artifact. -/
theorem tvpInit_no_dimension_check_witness :
    (tvpInit (TrainedArtifact.mk 3 5)).isOk = true ∧
    initSpec (TrainedArtifact.mk 3 5) = Except.error ArtifactError.artifactMismatch :=
  tvpInit_no_dimension_check (TrainedArtifact.mk 3 5) (by decide)

/-- The mean of a nonempty list of copies of `c` is `c`. -/
lemma listMean_const (xs : List ℚ) (c : ℚ) (hne : xs ≠ [])
    (hall : ∀ y ∈ xs, y = c) : listMean xs = c := by
  have hlen : (xs.length : ℚ) ≠ 0 :=
    Nat.cast_ne_zero.mpr (List.length_pos.mpr hne).ne'
  unfold listMean
  rw [List.sum_eq_card_nsmul xs c hall, nsmul_eq_mul]
  exact mul_div_cancel_left₀ c hlen

/-- A well-formed tree fitted against an all-`c` target column predicts
`c` on every input. -/
lemma treePredict_const {α : Type} (targets : List ℚ) (c : ℚ)
    (t : RegressionTree α) (htgt : ∀ y ∈ targets, y = c)
    (hwf : WFTree targets t) (x : α) : treePredict targets t x = c := by
  obtain ⟨hne, hidx⟩ := hwf x
  apply listMean_const
  · simpa using hne
  · intro y hy
    obtain ⟨i, hi, rfl⟩ := List.mem_map.mp hy
    have hilt : i < targets.length := hidx i hi
    rw [List.getD_eq_getElem _ _ hilt]
    exact htgt _ (List.getElem_mem hilt)

/-- C9: a forest of well-formed trees fitted against a constant target
column predicts exactly that constant on every input, and the root mean
squared error of its predictions against that constant on any evaluation
rows is 0. -/
theorem constant_target_forest {α : Type} (targets : List ℚ) (c : ℚ)
    (ts : List (RegressionTree α)) (htgt : ∀ y ∈ targets, y = c)
    (hts : ts ≠ []) (hwf : ∀ t ∈ ts, WFTree targets t) :
    (∀ x : α, forestPredict targets ts x = c) ∧
    ∀ rows : List α,
      mseList (rows.map (forestPredict targets ts)) (rows.map fun _ => c) = 0 ∧
      rmseList (rows.map (forestPredict targets ts)) (rows.map fun _ => c) = 0 := by
  have hpred : ∀ x : α, forestPredict targets ts x = c := by
    intro x
    apply listMean_const
    · simpa using hts
    · intro y hy
      obtain ⟨t, ht, rfl⟩ := List.mem_map.mp hy
      exact treePredict_const targets c t htgt (hwf t ht) x
  refine ⟨hpred, fun rows => ?_⟩
  have hmse : mseList (rows.map (forestPredict targets ts)) (rows.map fun _ => c) = 0 := by
    unfold mseList
    have hz :
        List.zipWith (fun p a => (p - a) ^ 2)
          (rows.map (forestPredict targets ts)) (rows.map fun _ => c) =
        rows.map fun r => (forestPredict targets ts r - c) ^ 2 := by
      rw [List.zipWith_map, List.zipWith_same]
    rw [hz]
    have hzero : (rows.map fun r => (forestPredict targets ts r - c) ^ 2).sum = 0 := by
      apply List.sum_eq_zero
      intro x hx
      obtain ⟨r, _, rfl⟩ := List.mem_map.mp hx
      rw [hpred r]
      ring
    unfold listMean
    rw [hzero, zero_div]
  refine ⟨hmse, ?_⟩
  unfold rmseList
  rw [hmse]
  simp

/-- C9 witness: two training rows of constant target 7 and a one-tree
forest whose single leaf holds row 0. -/
theorem constant_target_forest_witness :
    (∀ x : ℕ, forestPredict [7, 7] [⟨fun _ => [0]⟩] x = 7) ∧
    ∀ rows : List ℕ,
      mseList (rows.map (forestPredict [7, 7] [⟨fun _ => [0]⟩]))
        (rows.map fun _ => 7) = 0 ∧
      rmseList (rows.map (forestPredict [7, 7] [⟨fun _ => [0]⟩]))
        (rows.map fun _ => 7) = 0 :=
  constant_target_forest [7, 7] 7 [⟨fun _ => [0]⟩]
    (by intro y hy; simp at hy; exact hy) (by simp)
    (by
      intro t ht
      simp only [List.mem_singleton] at ht
      subst ht
      intro x
      exact ⟨by simp, by intro i hi; simp at hi ⊢; omega⟩)

/-- C10: the pipeline input omits `clouds_all`, so two raw rows that agree
on every selected feature column — differing, if at all, only in
`clouds_all` — receive the same model output and the same integer
prediction, for every fitted pipeline. -/
theorem prediction_independent_of_clouds_all (g : FeatureRow → ℚ)
    (r1 r2 : RawRow)
    (h1 : r1.holiday = r2.holiday) (h2 : r1.temp = r2.temp)
    (h3 : r1.rain_1h = r2.rain_1h) (h4 : r1.snow_1h = r2.snow_1h)
    (h5 : r1.weather_main = r2.weather_main) (h6 : r1.month = r2.month)
    (h7 : r1.hour = r2.hour) (h8 : r1.day_of_week = r2.day_of_week)
    (h9 : r1.is_weekend = r2.is_weekend)
    (h10 : r1.is_rush_hour = r2.is_rush_hour) :
    modelPredictOn g r1 = modelPredictOn g r2 ∧
    tvpPredict (modelPredictOn g) r1 = tvpPredict (modelPredictOn g) r2 := by
  have hsel : selectFeatures r1 = selectFeatures r2 := by
    unfold selectFeatures
    rw [h1, h2, h3, h4, h5, h6, h7, h8, h9, h10]
  have hmp : modelPredictOn g r1 = modelPredictOn g r2 := by
    unfold modelPredictOn
    rw [hsel]
  exact ⟨hmp, by unfold tvpPredict; rw [hmp]⟩

/-- C10 witness: two rows identical except for cloud coverage 40 versus
90, under the pipeline that reads the temperature column. -/
theorem prediction_independent_of_clouds_all_witness :
    modelPredictOn (fun f => f.temp)
        ⟨"None", 22.5, 0, 0, "Clouds", 40, 6, 17, 2, 0, 1⟩ =
      modelPredictOn (fun f => f.temp)
        ⟨"None", 22.5, 0, 0, "Clouds", 90, 6, 17, 2, 0, 1⟩ ∧
    tvpPredict (modelPredictOn fun f => f.temp)
        ⟨"None", 22.5, 0, 0, "Clouds", 40, 6, 17, 2, 0, 1⟩ =
      tvpPredict (modelPredictOn fun f => f.temp)
        ⟨"None", 22.5, 0, 0, "Clouds", 90, 6, 17, 2, 0, 1⟩ :=
  prediction_independent_of_clouds_all (fun f => f.temp) _ _
    rfl rfl rfl rfl rfl rfl rfl rfl rfl rfl

end TrafficTelligence
